import Mathlib

/-!
Verification development for the job-tracker extraction core.

The definitions below are a shallow embedding of the Python source:

  * `src/core/salary.py`            — salary normalization (`normalize_salary`)
  * `src/app/parsers/__init__.py`   — URL dispatcher (`detectParser`)
  * `src/core/jobs.py`              — legacy routing and classifiers
  * `src/app/parsers/linkedin.py`, `generic.py`, `handshake.py`
                                    — structured (HTML) extractors and the
                                      free-text extractor (`parse_text`)

Modelling conventions:

  * Python strings are Lean `String`; text handled by the claims is ASCII, so
    ASCII case folding and ASCII whitespace model the Python behaviour.
  * Python floats are modelled as exact fractions (`Frac`, an integer
    numerator with a positive integer denominator; kept unreduced so all
    arithmetic kernel-evaluates).  Every numeric literal the salary code
    parses is decimal with few digits, and all the conversions and roundings
    exercised here are exact or far from ties, where IEEE doubles and exact
    fractions agree digit for digit.
  * A Python expression that can raise (the bare `float(...)` call in the
    primary salary extraction) is modelled with `Except String`; everything
    else is total.
  * The regular-expression searches of the source are hand-compiled to
    explicit matching functions, preserving leftmost-match semantics and the
    greedy/backtracking behaviour relevant to the patterns involved.
  * BeautifulSoup is external; the pieces of the parsed document the source
    reads (og:title, og:site_name, the first h1, the visible body text) are
    modelled by an explicit `Doc` structure, and the outer try/except around
    document construction by `Except String Doc`.
  * `date.today().isoformat()` is environment input and is passed in as the
    `today` argument of the parse functions.
-/

namespace JobTracker

instance {ε α : Type} [DecidableEq ε] [DecidableEq α] : DecidableEq (Except ε α) := fun a b =>
  match a, b with
  | .ok x, .ok y =>
      if h : x = y then isTrue (by rw [h]) else isFalse (fun hc => h (Except.ok.inj hc))
  | .error x, .error y =>
      if h : x = y then isTrue (by rw [h]) else isFalse (fun hc => h (Except.error.inj hc))
  | .ok _, .error _ => isFalse Except.noConfusion
  | .error _, .ok _ => isFalse Except.noConfusion

/-! ## Character classes (ASCII, as used by Python str methods and regex) -/

/-- ASCII whitespace, as stripped by the Python `str.strip` and matched by `\s`. -/
def isWs (c : Char) : Bool :=
  c = ' ' || c = '\t' || c = '\n' || c = '\r' || c = '\x0b' || c = '\x0c'

def isDigitChar (c : Char) : Bool := '0' ≤ c && c ≤ '9'

def isUpperChar (c : Char) : Bool := 'A' ≤ c && c ≤ 'Z'

def isLowerChar (c : Char) : Bool := 'a' ≤ c && c ≤ 'z'

def isAlphaChar (c : Char) : Bool := isUpperChar c || isLowerChar c

/-- Regex word character `\w` over ASCII text. -/
def isWordChar (c : Char) : Bool := isAlphaChar c || isDigitChar c || c = '_'

def lowerChar (c : Char) : Char :=
  if isUpperChar c then Char.ofNat (c.toNat + 32) else c

def upperChar (c : Char) : Char :=
  if isLowerChar c then Char.ofNat (c.toNat - 32) else c

/-! ## Python string primitives -/

def stripChars (cs : List Char) : List Char :=
  ((cs.dropWhile isWs).reverse.dropWhile isWs).reverse

/-- The Python `str.strip()`. -/
def pyStrip (s : String) : String := ⟨stripChars s.data⟩

/-- The Python `str.lower()` (ASCII). -/
def pyLower (s : String) : String := ⟨s.data.map lowerChar⟩

def isPrefL : List Char → List Char → Bool
  | [], _ => true
  | _ :: _, [] => false
  | a :: as, b :: bs => a = b && isPrefL as bs

def occursIn (pat : List Char) : List Char → Bool
  | [] => pat.isEmpty
  | c :: rest => isPrefL pat (c :: rest) || occursIn pat rest

/-- The Python substring test `pat in s`. -/
def strContains (s pat : String) : Bool := occursIn pat.data s.data

/-- The Python `str.isdigit()` on ASCII text: nonempty and all digits. -/
def pyIsDigit (s : String) : Bool :=
  !s.data.isEmpty && s.data.all isDigitChar

/-- The Python `str.isupper()` on ASCII text: has a cased character and no
lowercase character. -/
def pyIsUpper (s : String) : Bool :=
  s.data.any isAlphaChar && s.data.all (fun c => !isLowerChar c)

/-- The Python `str.startswith`. -/
def pyStartsWith (s pat : String) : Bool := isPrefL pat.data s.data

/-- The Python `str.endswith`. -/
def pyEndsWith (s pat : String) : Bool := isPrefL pat.data.reverse s.data.reverse

/-- The Python `str.capitalize()` (ASCII): first character upper, rest lower. -/
def pyCapitalize (s : String) : String :=
  match s.data with
  | [] => ""
  | c :: rest => ⟨upperChar c :: rest.map lowerChar⟩

/-- Splitting on a nonempty separator; the fuel starts above the input
length so the zero-fuel case is unreachable. -/
def splitAux (sep : List Char) : Nat → List Char → List Char → List (List Char)
  | _, [], accRev => [accRev.reverse]
  | 0, cs, accRev => [accRev.reverse ++ cs]
  | fuel + 1, c :: rest, accRev =>
      if isPrefL sep (c :: rest) then
        accRev.reverse :: splitAux sep fuel ((c :: rest).drop sep.length) []
      else splitAux sep fuel rest (c :: accRev)

/-- The Python `s.split(sep)` for a nonempty separator. -/
def pySplit (s sep : String) : List String :=
  (splitAux sep.data (s.length + 1) s.data []).map (fun p => ⟨p⟩)

/-- Everything before the first occurrence of `sep`; the whole string when
`sep` does not occur (the Python `s.split(sep)[0]`). -/
def beforeFirst (s sep : String) : String :=
  match pySplit s sep with
  | [] => s
  | part :: _ => part

/-- Joining with a separator (the Python `sep.join`). -/
def joinSep (sep : String) : List String → String
  | [] => ""
  | [x] => x
  | x :: y :: rest => x ++ sep ++ joinSep sep (y :: rest)

/-- The Python `s.split(sep, 1)`: `some (before, after)` when `sep` occurs. -/
def splitFirst (s sep : String) : Option (String × String) :=
  match pySplit s sep with
  | [] => none
  | [_] => none
  | part :: rest => some (part, joinSep sep rest)

/-- The Python `"\n".join`. -/
def joinNl (lines : List String) : String := joinSep "\n" lines

/-! ## Number parsing and money formatting (`src/core/salary.py`) -/

/-- An exact fraction: the value `num / den` with `den` positive in every
fraction this development constructs.  This models the Python floats of the
salary code; all values exercised are exact in both representations. -/
structure Frac where
  num : ℤ
  den : ℤ
deriving DecidableEq

def Frac.ofNat (n : Nat) : Frac := ⟨n, 1⟩

def Frac.add (a b : Frac) : Frac := ⟨a.num * b.den + b.num * a.den, a.den * b.den⟩

def Frac.mul (a b : Frac) : Frac := ⟨a.num * b.num, a.den * b.den⟩

def Frac.div (a b : Frac) : Frac := ⟨a.num * b.den, a.den * b.num⟩

/-- Strict comparison, valid for positive denominators. -/
def Frac.blt (a b : Frac) : Bool := a.num * b.den < b.num * a.den

/-- Round to the nearest integer, ties to even — the rounding performed by
the Python float formatting on the values exercised here (none of which sit
at a tie once represented exactly).  Valid for positive denominators. -/
def Frac.round (a : Frac) : ℤ :=
  let f := Int.fdiv a.num a.den
  let rem2 := 2 * (a.num - f * a.den)
  if rem2 < a.den then f
  else if a.den < rem2 then f + 1
  else if Int.emod f 2 = 0 then f else f + 1

/-- Value of a list of decimal digit characters. -/
def digitsVal (cs : List Char) : Nat :=
  cs.foldl (fun acc c => acc * 10 + (c.toNat - 48)) 0

/-- The Python `float(num_str.replace(",", ""))` for the numeral shapes the
salary regexes can produce (digits and commas, optionally a dot followed by
digits).  `none` models the ValueError raised on a string with no digits. -/
def pyFloatOfNumStr (s : String) : Option Frac :=
  let cs := s.data.filter (fun c => c ≠ ',')
  let intDigits := cs.takeWhile isDigitChar
  let rest := cs.drop intDigits.length
  match rest with
  | [] => if intDigits.isEmpty then none else some (Frac.ofNat (digitsVal intDigits))
  | '.' :: fracDigits =>
      if intDigits.isEmpty && fracDigits.isEmpty then none
      else some ⟨(digitsVal intDigits) * 10 ^ fracDigits.length + digitsVal fracDigits,
        (10 : ℤ) ^ fracDigits.length⟩
  | _ => none

def digitChar (n : Nat) : Char := Char.ofNat (48 + n)

def natDigitsRev (fuel n : Nat) : List Char :=
  match fuel with
  | 0 => []
  | f + 1 => if n < 10 then [digitChar n] else digitChar (n % 10) :: natDigitsRev f (n / 10)

def natToDigits (n : Nat) : List Char := (natDigitsRev (n + 1) n).reverse

/-- Insert a comma before every third digit, working on a reversed digit
list; `i` counts digits already emitted. -/
def commaRev : List Char → Nat → List Char
  | [], _ => []
  | c :: rest, i =>
      if i ≠ 0 && i % 3 = 0 then ',' :: c :: commaRev rest (i + 1)
      else c :: commaRev rest (i + 1)

/-- A natural number with thousands separators, as Python `f"{n:,}"`. -/
def commaNat (n : Nat) : String := ⟨(commaRev (natToDigits n).reverse 0).reverse⟩

def commaInt (i : ℤ) : String :=
  if i < 0 then "-" ++ commaNat i.natAbs else commaNat i.natAbs

def twoDigitStr (n : Nat) : String :=
  (if n < 10 then "0" else "") ++ commaNat n

/-- The Python `f"${x:,.0f}"`. -/
def fmtMoney0 (x : Frac) : String := "$" ++ commaInt x.round

/-- The Python `f"${x:,.2f}"`. -/
def fmtMoney2 (x : Frac) : String :=
  let n := (x.mul (Frac.ofNat 100)).round
  "$" ++ commaInt (Int.ediv n 100) ++ "." ++ twoDigitStr (Int.emod n 100).toNat

/-! ## Salary normalizer (`src/core/salary.py`, `normalize_salary`) -/

def HOURS_PER_YEAR : Frac := Frac.ofNat 2080

def MONTHS_PER_YEAR : Frac := Frac.ofNat 12

def SALARY_MANUAL_KEYWORDS : List String :=
  ["negotiable", "tbd", "tba", "n/a", "not specified",
   "unspecified", "market", "dependent", "undisclosed", "competitive"]

def HOURLY_MARKERS : List String := ["/hr", "/hour", "per hour", "an hour", "hourly", " hr"]

def YEARLY_MARKERS : List String := ["/yr", "/year", "per year", "a year", "yearly", " yr"]

def MONTHLY_MARKERS : List String := ["/mo", "/month", "per month", "a month", "monthly", " mo"]

def skipWs (cs : List Char) : List Char := cs.dropWhile isWs

/-- Greedy match of `[\d,]+(?:\.\d+)?`: the matched numeral and the rest. -/
def takeNum (cs : List Char) : Option (List Char × List Char) :=
  let digs := cs.takeWhile (fun c => isDigitChar c || c = ',')
  if digs.isEmpty then none
  else
    let rest := cs.drop digs.length
    match rest with
    | '.' :: r2 =>
        let frac := r2.takeWhile isDigitChar
        if frac.isEmpty then some (digs, rest)
        else some (digs ++ '.' :: frac, r2.drop frac.length)
    | _ => some (digs, rest)

/-- Optional `(?:k|K)?`. -/
def skipK (cs : List Char) : List Char :=
  match cs with
  | 'k' :: rest => rest
  | 'K' :: rest => rest
  | _ => cs

def isHyphenChar (c : Char) : Bool := c = '-' || c = '–'

/-- One match of the primary salary pattern of `normalize_salary`
(`\$\s*([\d,]+(?:\.\d+)?)\s*(?:k|K)?(?:\s*[-–]\s*\$?\s*([\d,]+(?:\.\d+)?)\s*(?:k|K)?)?`)
anchored at the head of the input: the two capture groups (second may be
empty) and the rest of the input after the match. -/
def matchPrimaryAt (cs : List Char) : Option (String × String × List Char) :=
  match cs with
  | '$' :: r0 =>
      match takeNum (skipWs r0) with
      | none => none
      | some (g1, r2) =>
          let r4 := skipK (skipWs r2)
          -- optional range part
          let ranged : Option (String × List Char) :=
            match skipWs r4 with
            | c :: r5 =>
                if isHyphenChar c then
                  let r6 := skipWs r5
                  let r7 := match r6 with | '$' :: t => t | _ => r6
                  match takeNum (skipWs r7) with
                  | some (g2, r8) => some (⟨g2⟩, skipK (skipWs r8))
                  | none => none
                else none
            | [] => none
          match ranged with
          | some (g2, r9) => some (⟨g1⟩, g2, r9)
          | none => some (⟨g1⟩, "", r4)
  | _ => none

/-- The Python `re.findall` of the primary pattern: leftmost, non-overlapping. -/
def findAllPrimary : Nat → List Char → List (String × String)
  | 0, _ => []
  | _, [] => []
  | fuel + 1, c :: rest =>
      match matchPrimaryAt (c :: rest) with
      | some (g1, g2, after) => (g1, g2) :: findAllPrimary fuel after
      | none => findAllPrimary fuel rest

/-- The k-notation scaling applied to each extracted value: multiplied by
1000 when the letter k occurs anywhere in the (lowered) input and the value
is under 1000. -/
def scaleK (kInStr : Bool) (v : Frac) : Frac :=
  if kInStr && v.blt (Frac.ofNat 1000) then v.mul (Frac.ofNat 1000) else v

/-- One number of the primary extraction: parse then scale; a numeral with
no digits raises (Python ValueError), modelled as `Except.error`. -/
def numVal (kInStr : Bool) (numStr : String) : Except String Frac :=
  match pyFloatOfNumStr numStr with
  | none => .error "could not convert string to float"
  | some v => .ok (scaleK kInStr v)

/-- The value-collection loop over the findall results, in source order; the
first failing numeral aborts the whole call, as the uncaught Python exception
does. -/
def collectValues (kInStr : Bool) : List (String × String) → Except String (List Frac)
  | [] => .ok []
  | (g1, g2) :: rest =>
      let here : Except String (List Frac) :=
        if g1 = "" then
          if g2 = "" then .ok [] else (numVal kInStr g2).map ([·])
        else if g2 = "" then (numVal kInStr g1).map ([·])
        else
          match numVal kInStr g1, numVal kInStr g2 with
          | .ok v1, .ok v2 => .ok [v1, v2]
          | .error e, _ => .error e
          | .ok _, .error e => .error e
      match here, collectValues kInStr rest with
      | .ok h, .ok t => .ok (h ++ t)
      | .error e, _ => .error e
      | .ok _, .error e => .error e

/-- One match of the fallback pattern `([\d,]+)(?:\s*[-–]\s*([\d,]+))?\s*[kK]\b`
anchored at the head of the input. -/
def matchKFallbackAt (cs : List Char) : Option (String × String × List Char) :=
  let digs := cs.takeWhile (fun c => isDigitChar c || c = ',')
  if digs.isEmpty then none
  else
    let r1 := cs.drop digs.length
    let finishK (g2 : String) (r : List Char) : Option (String × String × List Char) :=
      match skipWs r with
      | 'k' :: t => if t.isEmpty || !isWordChar t.head! then some (⟨digs⟩, g2, t) else none
      | 'K' :: t => if t.isEmpty || !isWordChar t.head! then some (⟨digs⟩, g2, t) else none
      | _ => none
    let ranged : Option (String × String × List Char) :=
      match skipWs r1 with
      | c :: r2 =>
          if isHyphenChar c then
            let digs2 := (skipWs r2).takeWhile (fun d => isDigitChar d || d = ',')
            if digs2.isEmpty then none
            else finishK ⟨digs2⟩ ((skipWs r2).drop digs2.length)
          else none
      | [] => none
    match ranged with
    | some m => some m
    | none => finishK "" r1

/-- The Python `re.findall` of the fallback k-pattern. -/
def findAllKFallback : Nat → List Char → List (String × String)
  | 0, _ => []
  | _, [] => []
  | fuel + 1, c :: rest =>
      match matchKFallbackAt (c :: rest) with
      | some (g1, g2, after) => (g1, g2) :: findAllKFallback fuel after
      | none => findAllKFallback fuel rest

/-- The fallback value loop: failures of `float` are swallowed by the
try/except of the source (a failing first numeral skips the pair, a failing
second numeral keeps the first value). -/
def fallbackVals : List (String × String) → List Frac
  | [] => []
  | (n1, n2) :: rest =>
      (match pyFloatOfNumStr n1 with
       | none => []
       | some v1 =>
           v1.mul (Frac.ofNat 1000) ::
             (if n2 = "" then []
              else match pyFloatOfNumStr n2 with
                   | none => []
                   | some v2 => [v2.mul (Frac.ofNat 1000)])) ++ fallbackVals rest

/-- The body of `normalize_salary` after the initial strip. -/
def normalizeCore (s : String) : Except String String :=
  if s = "" then .ok ""
  else
    let lower := pyLower s
    if SALARY_MANUAL_KEYWORDS.contains lower then .ok s
    else
      let isHourly := HOURLY_MARKERS.any (fun m => strContains lower m)
      let isYearly := YEARLY_MARKERS.any (fun m => strContains lower m)
      let isMonthly := MONTHLY_MARKERS.any (fun m => strContains lower m)
      let hasCurrency := strContains s "$" || strContains lower "k"
      let hasTime := isHourly || isYearly || isMonthly
      if !hasCurrency && !hasTime then .ok s
      else
        match collectValues (strContains lower "k") (findAllPrimary (s.length + 1) s.data) with
        | .error e => .error e
        | .ok primary =>
            let values :=
              if primary.isEmpty then
                if strContains lower "k" && (isHourly || isYearly || isMonthly) then
                  fallbackVals (findAllKFallback (s.length + 1) s.data)
                else []
              else primary
            match values with
            | [] => .ok s
            | [v] =>
                if isHourly then
                  .ok (fmtMoney2 v ++ "/hr (~" ++ fmtMoney0 (v.mul HOURS_PER_YEAR) ++ "/yr)")
                else if isYearly then
                  .ok (fmtMoney0 v ++ "/yr (~" ++ fmtMoney2 (v.div HOURS_PER_YEAR) ++ "/hr)")
                else if isMonthly then
                  .ok (fmtMoney0 v ++ "/mo (~" ++ fmtMoney0 (v.mul MONTHS_PER_YEAR) ++ "/yr, ~" ++
                    fmtMoney2 ((v.mul MONTHS_PER_YEAR).div HOURS_PER_YEAR) ++ "/hr)")
                else .ok s
            | v1 :: v2 :: _ =>
                if isHourly then
                  .ok (fmtMoney2 v1 ++ "–" ++ fmtMoney2 v2 ++ "/hr (~" ++
                    fmtMoney0 (v1.mul HOURS_PER_YEAR) ++ "–" ++ fmtMoney0 (v2.mul HOURS_PER_YEAR) ++ "/yr)")
                else if isYearly then
                  .ok (fmtMoney0 v1 ++ "–" ++ fmtMoney0 v2 ++ "/yr (~" ++
                    fmtMoney2 (v1.div HOURS_PER_YEAR) ++ "–" ++ fmtMoney2 (v2.div HOURS_PER_YEAR) ++ "/hr)")
                else if isMonthly then
                  .ok (fmtMoney0 v1 ++ "–" ++ fmtMoney0 v2 ++ "/mo (~" ++
                    fmtMoney0 (v1.mul MONTHS_PER_YEAR) ++ "–" ++ fmtMoney0 (v2.mul MONTHS_PER_YEAR) ++ "/yr, ~" ++
                    fmtMoney2 ((v1.mul MONTHS_PER_YEAR).div HOURS_PER_YEAR) ++ "–" ++
                    fmtMoney2 ((v2.mul MONTHS_PER_YEAR).div HOURS_PER_YEAR) ++ "/hr)")
                else .ok s

/-- The `normalize_salary` function of `src/core/salary.py`.  The result is
`Except.error` exactly when the Python code raises (a dollar-anchored
numeral consisting only of commas). -/
def normalize_salary (s : String) : Except String String :=
  normalizeCore (pyStrip s)

/-! ## Dispatcher (`src/app/parsers/__init__.py` and `src/core/jobs.py`) -/

inductive Strategy where
  | linkedin
  | handshake
  | generic
deriving DecidableEq

/-- The parser registry of `src/app/parsers/__init__.py`, in insertion
order (Python dict iteration order). -/
def PARSERS : List (String × Strategy) :=
  [("linkedin.com", .linkedin), ("handshake.com", .handshake),
   ("joinhandshake.com", .handshake)]

/-- The `detectParser` of `src/app/parsers/__init__.py`: the first registry
entry whose domain fragment is a substring of the lowered URL; the generic
strategy when none matches. -/
def detectParser (url : String) : Strategy :=
  match PARSERS.find? (fun p => strContains (pyLower url) p.1) with
  | some p => p.2
  | none => .generic

/-- The URL routing of `parse_job_html` in `src/core/jobs.py` (lines
375-387). -/
def parse_job_html_route (url : String) : Strategy :=
  if strContains (pyLower url) "linkedin.com" then .linkedin
  else if strContains (pyLower url) "handshake.com" ||
      strContains (pyLower url) "joinhandshake.com" then .handshake
  else .generic

/-- The job-type detection of `parse_linkedin_job` in `src/core/jobs.py`
(lines 214-221): an internship check, then the first of Full-time,
Part-time, Contract, Temporary whose lowering occurs in the body text. -/
def coreLinkedinJobType (bodyLower : String) : String :=
  if strContains bodyLower "internship" || strContains bodyLower "intern position" ||
      strContains bodyLower "intern -" then "Internship"
  else if strContains bodyLower "full-time" then "Full-time"
  else if strContains bodyLower "part-time" then "Part-time"
  else if strContains bodyLower "contract" then "Contract"
  else if strContains bodyLower "temporary" then "Temporary"
  else ""

/-! ## City-state pattern (`([A-Z][a-z]+(?:\s+[A-Z][a-z]+)*,\s*[A-Z]{2})`) -/

/-- Greedy match of `[A-Z][a-z]+` at the head: the word and the rest. -/
def matchWord (cs : List Char) : Option (List Char × List Char) :=
  match cs with
  | c :: rest =>
      if isUpperChar c then
        let lows := rest.takeWhile isLowerChar
        if lows.isEmpty then none else some (c :: lows, rest.drop lows.length)
      else none
  | [] => none

/-- All backtracking states of `(?:\s+[A-Z][a-z]+)*` from a position, in
greedy preference order (most repetitions first); each state carries the
text accumulated so far and the rest of the input. -/
def extraWordStates (fuel : Nat) (acc cs : List Char) :
    List (List Char × List Char) :=
  match fuel with
  | 0 => [(acc, cs)]
  | f + 1 =>
      let ws := cs.takeWhile isWs
      if ws.isEmpty then [(acc, cs)]
      else
        match matchWord (cs.drop ws.length) with
        | some (w, rest) => extraWordStates f (acc ++ ws ++ w) rest ++ [(acc, cs)]
        | none => [(acc, cs)]

/-- Match of `,\s*[A-Z]{2}` at the head: the matched text and the rest. -/
def matchCityTail (cs : List Char) : Option (List Char × List Char) :=
  match cs with
  | ',' :: r1 =>
      let ws := r1.takeWhile isWs
      match r1.drop ws.length with
      | a :: b :: rest =>
          if isUpperChar a && isUpperChar b then some (',' :: (ws ++ [a, b]), rest)
          else none
      | _ => none
  | _ => none

/-- The city-state pattern matched at this position: the captured text of
the greedy-preferred successful backtracking state. -/
def matchCityAt (cs : List Char) : Option (List Char) :=
  match matchWord cs with
  | none => none
  | some (w, rest) =>
      (extraWordStates rest.length w rest).findSome? fun st =>
        match matchCityTail st.2 with
        | some (t, _) => some (st.1 ++ t)
        | none => none

/-- The anchored variant `^[A-Z][a-z]+(?:\s+[A-Z][a-z]+)*,\s*[A-Z]{2}$`
(a `re.match` against the whole line). -/
def matchCityFull (line : String) : Bool :=
  match matchWord line.data with
  | none => false
  | some (w, rest) =>
      (extraWordStates rest.length w rest).any fun st =>
        match matchCityTail st.2 with
        | some (_, r2) => r2.isEmpty
        | none => false

def searchCityAux : List Char → Option (List Char)
  | [] => none
  | c :: rest =>
      match matchCityAt (c :: rest) with
      | some m => some m
      | none => searchCityAux rest

/-- The `re.search` of the city-state pattern: leftmost match, group(1). -/
def searchCityState (s : String) : Option String :=
  (searchCityAux s.data).map (fun m => ⟨m⟩)

/-! ## Salary regex of the extractors -/

/-- Shape of one extractor salary pattern: the time-marker alternation, in
source order, whether the alternation carries a trailing `\b`, and whether a
time marker is mandatory. -/
structure SalPattern where
  tmAlts : List String
  tmWordBoundary : Bool
  tmMandatory : Bool

/-- Case-insensitive literal prefix test (the pattern is lowercase). -/
def ciPrefMatch : List Char → List Char → Bool
  | [], _ => true
  | _ :: _, [] => false
  | a :: as, b :: bs => a = lowerChar b && ciPrefMatch as bs

/-- First alternative of the time-marker alternation matching at this
position (with the word-boundary test when the pattern has one): the
matched original text and the rest. -/
def matchTMAt (alts : List String) (wb : Bool) (cs : List Char) :
    Option (List Char × List Char) :=
  alts.findSome? fun alt =>
    if ciPrefMatch alt.data cs then
      let rest := cs.drop alt.length
      if wb && !rest.isEmpty && isWordChar (rest.headD ' ') then none
      else some (cs.take alt.length, rest)
    else none

/-- Optional `(?:\s*(?:k|K))?`: consume whitespace plus k only when the k is
present. -/
def tryOptK (acc cs : List Char) : List Char × List Char :=
  let ws := cs.takeWhile isWs
  match cs.drop ws.length with
  | c :: rest =>
      if c = 'k' || c = 'K' then (acc ++ ws ++ [c], rest) else (acc, cs)
  | [] => (acc, cs)

/-- Optional range part `\s*[-–]\s*\$?\s*[\d,]+(?:\.\d+)?(?:\s*[kK])?`. -/
def tryRange (acc cs : List Char) : Option (List Char × List Char) :=
  let ws := cs.takeWhile isWs
  match cs.drop ws.length with
  | c :: rest =>
      if isHyphenChar c then
        let ws2 := rest.takeWhile isWs
        let afterDollar : List Char × List Char :=
          match rest.drop ws2.length with
          | '$' :: t => (['$'], t)
          | other => ([], other)
        let ws3 := afterDollar.2.takeWhile isWs
        match takeNum (afterDollar.2.drop ws3.length) with
        | some (numCs, r3) =>
            some (tryOptK (acc ++ ws ++ c :: (ws2 ++ afterDollar.1 ++ ws3 ++ numCs)) r3)
        | none => none
      else none
  | [] => none

/-- The closing `\s*TM` part: mandatory or optional per the pattern. -/
def finishTM (pat : SalPattern) (acc cs : List Char) :
    Option (List Char × List Char) :=
  let ws := cs.takeWhile isWs
  match matchTMAt pat.tmAlts pat.tmWordBoundary (cs.drop ws.length) with
  | some (tmCs, rest) => some (acc ++ ws ++ tmCs, rest)
  | none => if pat.tmMandatory then none else some (acc, cs)

/-- One extractor salary match anchored at this position (group(0) and the
rest); tries the range part greedily and falls back without it when the
mandatory time marker would otherwise fail. -/
def matchSalaryAt (pat : SalPattern) (cs : List Char) :
    Option (List Char × List Char) :=
  match cs with
  | '$' :: r0 =>
      let ws1 := r0.takeWhile isWs
      match takeNum (r0.drop ws1.length) with
      | none => none
      | some (numCs, r1) =>
          let afterK := tryOptK ('$' :: (ws1 ++ numCs)) r1
          let withRange : Option (List Char × List Char) :=
            match tryRange afterK.1 afterK.2 with
            | some st => finishTM pat st.1 st.2
            | none => none
          match withRange with
          | some res => some res
          | none => finishTM pat afterK.1 afterK.2
  | _ => none

def searchSalaryAux (pat : SalPattern) : List Char → Option (List Char)
  | [] => none
  | c :: rest =>
      match matchSalaryAt pat (c :: rest) with
      | some (m, _) => some m
      | none => searchSalaryAux pat rest

/-- The `re.search` of an extractor salary pattern: leftmost group(0). -/
def searchSalary (pat : SalPattern) (s : String) : Option String :=
  (searchSalaryAux pat s.data).map (fun m => ⟨m⟩)

/-- The simple marker alternation of `src/app/parsers/linkedin.py` and
`generic.py` (optional, no word boundary). -/
def APP_TM_SIMPLE : List String := ["/hr", "/hour", "per hour", "/yr", "/year", "per year"]

/-- The `TIME_MARKERS_PATTERN` alternation of `src/app/parsers/handshake.py`
(and `src/core/jobs.py`), in source order, carrying a `\b`. -/
def TIME_MARKERS_LIST : List String :=
  ["/yr", "/year", "per year", "yr", "/mo", "/month", "per month", "month", "mo",
   "/hr", "/hour", "per hour", "hr"]

def linkedinSalPat : SalPattern := ⟨APP_TM_SIMPLE, false, false⟩

def handshakeSalPat : SalPattern := ⟨TIME_MARKERS_LIST, true, false⟩

/-- The free-text salary pattern: same markers, but mandatory. -/
def textSalPat : SalPattern := ⟨TIME_MARKERS_LIST, true, true⟩

/-! ## Structured (HTML) extractors (`src/app/parsers/`) -/

/-- The pieces of the BeautifulSoup document the extractors read: the
og:title and og:site_name meta contents (None when the tag or its content
attribute is absent), the stripped text of the first h1, and the visible
text `soup.get_text(" ", strip=True)`. -/
structure Doc where
  ogTitle : Option String
  siteName : Option String
  h1Text : Option String
  bodyText : String

/-- The standardized record (the `job_data` dict of the app parsers). -/
structure JobData where
  date_added : String
  platform : String
  company : String
  title : String
  location : String
  salary : String
  job_type : String
  remote : String
  url : String
  status : String
  notes : String
deriving DecidableEq

/-- The remote/hybrid/on-site chain appearing verbatim in each of the three
app extractors. -/
def detectRemote (bodyLower : String) : String :=
  if strContains bodyLower "remote" then "Remote"
  else if strContains bodyLower "hybrid" then "Hybrid"
  else "On-site"

/-- The job-type chain appearing verbatim in each of the three app
extractors. -/
def detectJobType (bodyLower : String) : String :=
  if strContains bodyLower "internship" || strContains bodyLower "intern position" then
    "Internship"
  else if strContains bodyLower "full-time" || strContains bodyLower "full time" then
    "Full-time"
  else if strContains bodyLower "part-time" || strContains bodyLower "part time" then
    "Part-time"
  else if strContains bodyLower "contract" then "Contract"
  else ""

/-- The og:title decomposition of the LinkedIn extractor for a present
nonempty content: title and company. -/
def linkedinTitleCompany (content : String) : String × String :=
  let titleText := pyStrip content
  if strContains titleText " - " then
    match splitFirst titleText " - " with
    | some (p0, p1) =>
        if strContains p1 " | " then (pyStrip p0, pyStrip (beforeFirst p1 " | "))
        else (pyStrip p0, pyStrip p1)
    | none => (titleText, "")
  else (pyStrip (beforeFirst titleText " | "), "")

/-- The `parse` of `src/app/parsers/linkedin.py`; `d` is the outcome of the
document construction, `Except.error` modelling the exception caught by the
outer handler. -/
def linkedin_parse (today : String) (d : Except String Doc) (jobUrl : String) : JobData :=
  match d with
  | .error e =>
      { date_added := today, platform := "LinkedIn", company := "", title := "",
        location := "", salary := "", job_type := "", remote := "",
        url := jobUrl, status := "Not applied", notes := "Parsing error: " ++ e }
  | .ok doc =>
      let tc : String × String :=
        match doc.ogTitle with
        | some content => if content ≠ "" then linkedinTitleCompany content else ("", "")
        | none => ("", "")
      let title := if tc.1 = "" then doc.h1Text.getD "" else tc.1
      let bodyLower := pyLower doc.bodyText
      { date_added := today, platform := "LinkedIn", company := tc.2, title := title,
        location := (searchCityState doc.bodyText).getD "",
        salary := (searchSalary linkedinSalPat doc.bodyText).map pyStrip |>.getD "",
        job_type := detectJobType bodyLower, remote := detectRemote bodyLower,
        url := jobUrl, status := "Not applied", notes := "" }

/-- The `parse` of `src/app/parsers/handshake.py` (HTML path). -/
def handshake_parse (today : String) (d : Except String Doc) (jobUrl : String) : JobData :=
  match d with
  | .error e =>
      { date_added := today, platform := "Handshake", company := "", title := "",
        location := "", salary := "", job_type := "", remote := "",
        url := jobUrl, status := "Not applied", notes := "Parsing error: " ++ e }
  | .ok doc =>
      let title :=
        match doc.ogTitle with
        | some content => if content ≠ "" then pyStrip content else doc.h1Text.getD ""
        | none => doc.h1Text.getD ""
      let company :=
        match doc.siteName with
        | some content => if content ≠ "" then pyStrip content else ""
        | none => ""
      let bodyLower := pyLower doc.bodyText
      { date_added := today, platform := "Handshake", company := company, title := title,
        location := (searchCityState doc.bodyText).getD "",
        salary := (searchSalary handshakeSalPat doc.bodyText).map pyStrip |>.getD "",
        job_type := detectJobType bodyLower, remote := detectRemote bodyLower,
        url := jobUrl, status := "Not applied", notes := "" }

/-- The netloc of the Python urlparse for the URL shapes met here: the text
between a "//" introducing the authority (after an optional scheme) and the
next "/", "?" or "#"; empty otherwise. -/
def pyNetloc (url : String) : String :=
  let rest :=
    match splitFirst url ":" with
    | some (scheme, after) =>
        if scheme ≠ "" && isAlphaChar (scheme.data.headD '0') &&
            scheme.data.all (fun c => isAlphaChar c || isDigitChar c ||
              c = '+' || c = '-' || c = '.') then after
        else url
    | none => url
  if pyStartsWith rest "//" then
    ⟨(rest.data.drop 2).takeWhile (fun c => c ≠ '/' && c ≠ '?' && c ≠ '#')⟩
  else ""

/-- The platform inference of `src/app/parsers/generic.py`. -/
def genericPlatform (jobUrl : String) : String :=
  if strContains (pyLower jobUrl) "indeed.com" then "Indeed"
  else if strContains (pyLower jobUrl) "glassdoor" then "Glassdoor"
  else "Other"

/-- The company-from-domain inference of `src/app/parsers/generic.py`:
the second-to-last dot-component of the netloc, capitalized. -/
def genericCompany (jobUrl : String) : String :=
  let parts := pySplit (pyNetloc jobUrl) "."
  if parts.length ≥ 2 then pyCapitalize (parts.getD (parts.length - 2) "") else ""

/-- The `parse` of `src/app/parsers/generic.py`. -/
def generic_parse (today : String) (d : Except String Doc) (jobUrl : String) : JobData :=
  match d with
  | .error e =>
      { date_added := today, platform := genericPlatform jobUrl, company := "", title := "",
        location := "", salary := "", job_type := "", remote := "",
        url := jobUrl, status := "Not applied", notes := "Parsing error: " ++ e }
  | .ok doc =>
      let title :=
        match doc.ogTitle with
        | some content => if content ≠ "" then pyStrip content else doc.h1Text.getD ""
        | none => doc.h1Text.getD ""
      let bodyLower := pyLower doc.bodyText
      { date_added := today, platform := genericPlatform jobUrl,
        company := genericCompany jobUrl, title := title,
        location := (searchCityState doc.bodyText).getD "",
        salary := (searchSalary linkedinSalPat doc.bodyText).map pyStrip |>.getD "",
        job_type := detectJobType bodyLower, remote := detectRemote bodyLower,
        url := jobUrl, status := "Not applied", notes := "" }

/-! ## Free-text extractor (`src/app/parsers/handshake.py`, `parse_text`) -/

/-- Match of `^\d+\s+profile\s+views?$` against a whole (lowered) line. -/
def noiseProfileViews (cs : List Char) : Bool :=
  let ds := cs.takeWhile isDigitChar
  if ds.isEmpty then false
  else
    let r1 := cs.drop ds.length
    let w1 := r1.takeWhile isWs
    if w1.isEmpty then false
    else
      let r2 := r1.drop w1.length
      if isPrefL "profile".data r2 then
        let r3 := r2.drop 7
        let w2 := r3.takeWhile isWs
        if w2.isEmpty then false
        else
          let r4 := r3.drop w2.length
          if isPrefL "view".data r4 then
            let r5 := r4.drop 4
            r5.isEmpty || r5 = ['s']
          else false
      else false

/-- Match of `in the past \d+ days?$` anchored at the start (a `re.match`). -/
def noisePastDays (cs : List Char) : Bool :=
  if isPrefL "in the past ".data cs then
    let r1 := cs.drop 12
    let ds := r1.takeWhile isDigitChar
    if ds.isEmpty then false
    else
      let r2 := r1.drop ds.length
      if isPrefL " day".data r2 then
        let r3 := r2.drop 4
        r3.isEmpty || r3 = ['s']
      else false
  else false

/-- Match of `^={3,}$`. -/
def noiseEqRule (cs : List Char) : Bool :=
  cs.length ≥ 3 && cs.all (fun c => c = '=')

/-- The `noise_patterns` table of `parse_text`, each entry applied with
`re.match` to the lowered stripped line. -/
def matchesNoisePattern (lineLower : String) : Bool :=
  noiseProfileViews lineLower.data ||
  pyStartsWith lineLower "skip to" ||
  lineLower = "menu" || lineLower = "navigation" || lineLower = "home" ||
  lineLower = "jobs" || lineLower = "sign in" || lineLower = "log in" ||
  lineLower = "search" || lineLower = "get the app" || lineLower = "save" ||
  lineLower = "share" || lineLower = "apply" || lineLower = "follow" ||
  noisePastDays lineLower.data ||
  pyStartsWith lineLower "posted" ||
  pyStartsWith lineLower "apply by" ||
  noiseEqRule lineLower.data

/-- The `is_noise` classifier of `parse_text`. -/
def is_noise (line : String) : Bool :=
  if line = "" || pyStrip line = "" then true
  else
    let lineLower := pyStrip (pyLower line)
    if pyIsDigit lineLower then true
    else if strContains lineLower " logo" || pyEndsWith lineLower "logo" then true
    else matchesNoisePattern lineLower

/-- The tail `\s+logo\s*$` of the logo-line pattern (case-insensitive). -/
def logoTail (cs : List Char) : Bool :=
  let ws := cs.takeWhile isWs
  if ws.isEmpty then false
  else
    let r := cs.drop ws.length
    if ciPrefMatch "logo".data r then (r.drop 4).all isWs
    else false

def logoAux (accRev : List Char) : List Char → Option String
  | [] => none
  | c :: rest =>
      if logoTail rest then some ⟨(c :: accRev).reverse⟩
      else logoAux (c :: accRev) rest

/-- The `^(.+?)\s+logo\s*$` match (ignorecase): the lazily-shortest nonempty
group followed by whitespace, "logo" and optional trailing whitespace. -/
def logoGroup (line : String) : Option String := logoAux [] line.data

/-- Match of `\d+\s+days?\s+ago` at this position. -/
def daysAgoAt (cs : List Char) : Bool :=
  let ds := cs.takeWhile isDigitChar
  if ds.isEmpty then false
  else
    let r1 := cs.drop ds.length
    let w1 := r1.takeWhile isWs
    if w1.isEmpty then false
    else
      let r2 := r1.drop w1.length
      if isPrefL "day".data r2 then
        let r3 := r2.drop 3
        let r4 := match r3 with
          | 's' :: t => t
          | _ => r3
        let w2 := r4.takeWhile isWs
        if w2.isEmpty then false else isPrefL "ago".data (r4.drop w2.length)
      else false

/-- The `re.search(r"\d+\s+days?\s+ago", ...)` existence test. -/
def searchDaysAgo : List Char → Bool
  | [] => false
  | c :: rest => daysAgoAt (c :: rest) || searchDaysAgo rest

/-- The mutable extraction state of `parse_text`. -/
structure PTState where
  position : String
  company : String
  location : String
  salary : String
  job_type : String
  remote_hint : String

/-- The label set of the first labeled-block scan. -/
def LABEL_SET : List String :=
  ["position", "company", "location", "salary", "jobtype", "job type", "employment type"]

/-- The labeled-block scan (`labels_map` construction): on a label line the
next line becomes its value and the walk advances two lines. -/
def labelsScan : List String → List (String × String)
  | [] => []
  | l :: rest =>
      let key := pyLower (pyStrip l)
      if LABEL_SET.contains key then
        match rest with
        | next :: rest2 => (key, pyStrip next) :: labelsScan rest2
        | [] => [(key, "")]
      else labelsScan rest

/-- Python dict lookup over the accumulated pairs: the last write wins. -/
def dictGet (m : List (String × String)) (k : String) : Option String :=
  List.lookup k m.reverse

/-- A lookup that is `none` also on a falsy (empty) value, mirroring the
`if val:` truthiness checks. -/
def truthyGet (m : List (String × String)) (k : String) : Option String :=
  match dictGet m k with
  | some v => if v = "" then none else some v
  | none => none

/-- The `if labels_map:` assignment block of `parse_text`. -/
def applyLabels (m : List (String × String)) (st : PTState) : PTState :=
  if m.isEmpty then st
  else
    let st := match truthyGet m "position" with
      | some v => { st with position := v }
      | none => st
    let st := match truthyGet m "company" with
      | some v => { st with company := v }
      | none => st
    let st := match truthyGet m "location" with
      | some v => { st with location := (searchCityState v).getD v }
      | none => st
    let st := match truthyGet m "salary" with
      | some v => { st with salary := v }
      | none => st
    match truthyGet m "jobtype" <|> truthyGet m "job type" <|> truthyGet m "employment type" with
    | some v => { st with job_type := v }
    | none => st

/-- The first line containing "logo" (the loop breaks at it). -/
def firstLogoLine (lines : List String) : Option String :=
  lines.find? (fun l => strContains (pyLower l) "logo")

/-- The 0-based index of the first line containing "logo". -/
def logoLineIdx : Nat → List String → Option Nat
  | _, [] => none
  | i, l :: rest =>
      if strContains (pyLower l) "logo" then some i else logoLineIdx (i + 1) rest

/-- The company-from-logo-line stage. -/
def stageLogoCompany (lines : List String) (st : PTState) : PTState :=
  match firstLogoLine lines with
  | none => st
  | some line =>
      match logoGroup line with
      | some g =>
          if st.company = "" then
            let pc := pyStrip g
            if !is_noise pc && pc.length > 2 then { st with company := pc } else st
          else st
      | none => st

/-- The title-after-logo scan: up to 8 lines after the logo line, breaking
on posted/days-ago/apply-by lines, skipping the company line, noise, short,
all-caps and city-state lines; the first survivor is the title. -/
def titleAfterLogo (company : String) : Nat → List String → String
  | 0, _ => ""
  | _, [] => ""
  | fuel + 1, l :: rest =>
      let line := pyStrip l
      let lower := pyLower line
      if pyStartsWith lower "posted" || searchDaysAgo lower.data ||
          strContains lower "apply by" then ""
      else if company ≠ "" && lower = pyLower company then titleAfterLogo company fuel rest
      else if is_noise line || line.length ≤ 3 || pyIsUpper line || matchCityFull line then
        titleAfterLogo company fuel rest
      else line

/-- The title-after-logo stage: only when a logo line was found and the
position is still unset. -/
def stageTitle (lines : List String) (st : PTState) : PTState :=
  match logoLineIdx 0 lines with
  | some i =>
      if st.position = "" then
        { st with position := titleAfterLogo st.company 8 (lines.drop (i + 1)) }
      else st
  | none => st

/-- The labeled-field fallback loop of `parse_text`: runs while position or
company is unset; label branches consume the value line and advance two
lines, anything else advances one. -/
def stageD (st : PTState) : List String → PTState
  | [] => st
  | [l] =>
      if st.position ≠ "" && st.company ≠ "" then st
      else if pyLower l = "location" then { st with location := "" }
      else st
  | l :: next :: rest2 =>
      if st.position ≠ "" && st.company ≠ "" then st
      else if st.position = "" && pyLower l = "position" then
        (if !is_noise (pyStrip next) then stageD { st with position := pyStrip next } rest2
         else stageD st (next :: rest2))
      else if st.company = "" && pyLower l = "company" then
        (if !is_noise (pyStrip next) then stageD { st with company := pyStrip next } rest2
         else stageD st (next :: rest2))
      else if pyLower l = "location" then
        stageD { st with location :=
          match searchCityState (joinNl (next :: rest2)) with
          | some m => m
          | none => pyStrip next } rest2
      else if pyLower l = "salary" then stageD { st with salary := pyStrip next } rest2
      else if pyLower l = "jobtype" || pyLower l = "job type" ||
          pyLower l = "employment type" then
        stageD { st with job_type := pyStrip next } rest2
      else if pyLower l = "remote" then stageD { st with remote_hint := pyStrip next } rest2
      else stageD st (next :: rest2)

def LABEL_WORDS : List String :=
  ["position", "company", "location", "salary", "jobtype", "job type", "remote",
   "employment type"]

def SKIP_KEYWORDS : List String := ["profile", "view", "follow"]

def TITLE_KEYWORDS : List String :=
  ["engineer", "developer", "manager", "analyst", "scientist", "designer",
   "architect", "specialist"]

/-- The `full[-\s]?time` / `part[-\s]?time` tail after the four-letter stem. -/
def flexTimeTail : List Char → Bool
  | 't' :: 'i' :: 'm' :: 'e' :: [] => true
  | c :: 't' :: 'i' :: 'm' :: 'e' :: [] => c = '-' || isWs c
  | _ => false

/-- Full match of `^(internship|full[-\s]?time|part[-\s]?time|contract)$`
against a lowered line. -/
def isJobTypeWord (lower : String) : Bool :=
  lower = "internship" || lower = "contract" ||
  (pyStartsWith lower "full" && flexTimeTail (lower.data.drop 4)) ||
  (pyStartsWith lower "part" && flexTimeTail (lower.data.drop 4))

/-- The meaningful-line filter of the final fallback stage. -/
def meaningfulLine (line : String) : Bool :=
  !is_noise line && !LABEL_WORDS.contains (pyLower line) && line.length > 5 &&
  !SKIP_KEYWORDS.any (fun kw => strContains (pyLower line) kw) &&
  !matchCityFull line && !strContains (pyLower line) "logo"

/-- The meaningful-line fallback stage for position and company. -/
def stageMeaningful (lines : List String) (st : PTState) : PTState :=
  if st.position ≠ "" && st.company ≠ "" then st
  else
    let ml := lines.filter meaningfulLine
    let st :=
      if st.position = "" && !ml.isEmpty then
        let preferred := ml.filter (fun l =>
          TITLE_KEYWORDS.any (fun k => strContains (pyLower l) k) &&
          !isJobTypeWord (pyLower l))
        { st with position := preferred.headD (ml.headD "") }
      else st
    if st.company = "" && ml.length > 1 then { st with company := ml.getD 1 "" }
    else st

/-- The `parse_text` of `src/app/parsers/handshake.py`. -/
def parse_text (today text jobUrl : String) : JobData :=
  let lines := ((pySplit text "\n").map pyStrip).filter (fun l => l ≠ "")
  let cleanedText := joinNl lines
  let textLower := pyLower cleanedText
  let st1 := applyLabels (labelsScan lines) ⟨"", "", "", "", "", ""⟩
  let st2 := stageLogoCompany lines st1
  let st3 := stageTitle lines st2
  let st4 := stageD st3 lines
  let st5 := stageMeaningful lines st4
  let st6 := if st5.location = "" then
      { st5 with location := (searchCityState text).getD "" }
    else st5
  let st7 := if st6.salary = "" then
      { st6 with salary := (searchSalary textSalPat text).map pyStrip |>.getD "" }
    else st6
  let st8 := if st7.remote_hint = "" then
      { st7 with remote_hint :=
          if strContains textLower "remote" then "Remote"
          else if strContains textLower "hybrid" then "Hybrid"
          else "" }
    else st7
  let st9 := if st8.job_type = "" then
      { st8 with job_type :=
          if strContains textLower "internship" || strContains textLower "intern position" then
            "Internship"
          else if strContains textLower "full-time" || strContains textLower "full time" then
            "Full-time"
          else if strContains textLower "part-time" || strContains textLower "part time" then
            "Part-time"
          else if strContains textLower "contract" then "Contract"
          else "" }
    else st8
  let finalLoc := match searchCityState st9.location with
    | some m => m
    | none => match searchCityState cleanedText with
      | some m => m
      | none => st9.location
  { date_added := today, platform := "Handshake", company := st9.company,
    title := st9.position, location := finalLoc, salary := st9.salary,
    job_type := st9.job_type, remote := st9.remote_hint, url := jobUrl,
    status := "Not applied", notes := "" }

/-! ## Helper lemmas -/

theorem dropWhile_isWs_idem (cs : List Char) :
    (cs.dropWhile isWs).dropWhile isWs = cs.dropWhile isWs := by
  induction cs with
  | nil => rfl
  | cons c rest ih =>
      by_cases h : isWs c
      · simp [List.dropWhile_cons, h, ih]
      · simp [List.dropWhile_cons, h]

theorem dropWhile_head_false (p : Char → Bool) (cs : List Char) :
    ∀ c rest, cs.dropWhile p = c :: rest → p c = false := by
  induction cs with
  | nil => intro c rest h; simp [List.dropWhile] at h
  | cons a l ih =>
      intro c rest h
      by_cases ha : p a
      · rw [List.dropWhile_cons, if_pos ha] at h; exact ih c rest h
      · rw [List.dropWhile_cons, if_neg ha] at h
        cases h
        simpa using ha

theorem stripChars_prefL (cs : List Char) :
    stripChars cs <+: cs.dropWhile isWs := by
  have h1 : ((cs.dropWhile isWs).reverse.dropWhile isWs) <:+ (cs.dropWhile isWs).reverse :=
    List.dropWhile_suffix isWs
  have h2 : (((cs.dropWhile isWs).reverse.dropWhile isWs).reverse).reverse <:+
      (cs.dropWhile isWs).reverse := by simpa using h1
  exact List.reverse_suffix.mp h2

theorem stripChars_dropWhile (cs : List Char) :
    (stripChars cs).dropWhile isWs = stripChars cs := by
  cases hS : stripChars cs with
  | nil => rfl
  | cons c rest =>
      have hp : stripChars cs <+: cs.dropWhile isWs := stripChars_prefL cs
      rw [hS] at hp
      obtain ⟨t, ht⟩ := hp
      rw [List.cons_append] at ht
      have hc : isWs c = false := dropWhile_head_false isWs cs c (rest ++ t) ht.symm
      rw [List.dropWhile_cons, if_neg (by simp [hc])]

theorem stripChars_idem (cs : List Char) :
    stripChars (stripChars cs) = stripChars cs := by
  conv_lhs => rw [stripChars, stripChars_dropWhile cs]
  rw [show stripChars cs = ((cs.dropWhile isWs).reverse.dropWhile isWs).reverse from rfl]
  rw [List.reverse_reverse, dropWhile_isWs_idem]

theorem pyStrip_idem (s : String) : pyStrip (pyStrip s) = pyStrip s := by
  show String.mk (stripChars (stripChars s.data)) = String.mk (stripChars s.data)
  rw [stripChars_idem]

theorem numVal_scale (k : Bool) (g : String) :
    numVal k g = (numVal false g).map (scaleK k) := by
  unfold numVal
  cases pyFloatOfNumStr g <;> simp [Except.map, scaleK]

theorem collectValues_scale (k : Bool) (gps : List (String × String)) :
    collectValues k gps = (collectValues false gps).map (List.map (scaleK k)) := by
  induction gps with
  | nil => rfl
  | cons p rest ih =>
      obtain ⟨g1, g2⟩ := p
      simp only [collectValues, numVal_scale k g1, numVal_scale k g2, ih]
      by_cases h1 : g1 = "" <;> by_cases h2 : g2 = "" <;>
        simp only [h1, h2, if_true, if_false, ite_true, ite_false, if_neg, reduceIte] <;>
        cases numVal false g1 <;> cases numVal false g2 <;>
        cases collectValues false rest <;>
        simp [Except.map]

theorem applyLabels_remote (m : List (String × String)) (st : PTState) :
    (applyLabels m st).remote_hint = st.remote_hint := by
  unfold applyLabels
  repeat' split
  all_goals rfl

theorem stageLogoCompany_remote (lines : List String) (st : PTState) :
    (stageLogoCompany lines st).remote_hint = st.remote_hint := by
  unfold stageLogoCompany
  repeat' split
  all_goals first
  | rfl
  | simp [apply_ite PTState.remote_hint]

theorem stageMeaningful_remote (lines : List String) (st : PTState) :
    (stageMeaningful lines st).remote_hint = st.remote_hint := by
  unfold stageMeaningful
  repeat' split
  all_goals first
  | rfl
  | simp [apply_ite PTState.remote_hint]

theorem stageTitle_remote (lines : List String) (st : PTState) :
    (stageTitle lines st).remote_hint = st.remote_hint := by
  unfold stageTitle
  repeat' split
  all_goals rfl

theorem stageD_remote (st : PTState) (lines : List String)
    (h : ∀ l ∈ lines, pyLower l ≠ "remote") :
    (stageD st lines).remote_hint = st.remote_hint := by
  induction st, lines using stageD.induct
  all_goals first
  | rfl
  | (rw [stageD]
     repeat' split
     all_goals simp_all [apply_ite PTState.remote_hint])

set_option maxHeartbeats 1600000 in
/-- When no nonempty line of the pasted text is exactly the word "remote",
the remote field of `parse_text` is the bare keyword fallback: "Remote",
"Hybrid", or the empty string. -/
theorem parse_text_remote_char (today text jobUrl : String)
    (h : ∀ l ∈ ((pySplit text "\n").map pyStrip).filter (fun l => l ≠ ""),
      pyLower l ≠ "remote") :
    (parse_text today text jobUrl).remote =
      (if strContains (pyLower (joinNl (((pySplit text "\n").map pyStrip).filter
          (fun l => l ≠ "")))) "remote" then "Remote"
       else if strContains (pyLower (joinNl (((pySplit text "\n").map pyStrip).filter
          (fun l => l ≠ "")))) "hybrid" then "Hybrid"
       else "") := by
  have key : ∀ st : PTState,
      (stageD st (((pySplit text "\n").map pyStrip).filter (fun l => l ≠ ""))).remote_hint =
        st.remote_hint :=
    fun st => stageD_remote st _ h
  rw [parse_text]
  simp only [key, applyLabels_remote, stageLogoCompany_remote, stageTitle_remote,
    stageMeaningful_remote, apply_ite PTState.remote_hint, ite_self, ite_true, if_true]

/-- The keyword fallback of the free-text path against the structured
classifier, on any single lowered text. -/
theorem keywordRemote_agree (t : String) :
    (strContains t "remote" = true ∨ strContains t "hybrid" = true →
      (if strContains t "remote" then "Remote"
       else if strContains t "hybrid" then "Hybrid" else "") = detectRemote t) ∧
    (strContains t "remote" = false → strContains t "hybrid" = false →
      (if strContains t "remote" then "Remote"
       else if strContains t "hybrid" then "Hybrid" else "") = "" ∧
      detectRemote t = "On-site") := by
  unfold detectRemote
  cases hr : strContains t "remote" <;> cases hh : strContains t "hybrid" <;> simp

/-! ## Claim theorems: Salary Normalizer -/

/-- C2 (counterexample): `normalize_salary` is not idempotent.  Applying it
to the converted output `"$23.00/hr (~$47,840/yr)"` re-extracts both dollar
figures and produces a doubly-annotated range. -/
theorem C2_counterexample :
    normalize_salary "$23/hr" = .ok "$23.00/hr (~$47,840/yr)" ∧
    normalize_salary "$23.00/hr (~$47,840/yr)" =
      .ok "$23.00–$47,840.00/hr (~$47,840–$99,507,200/yr)" ∧
    ("$23.00/hr (~$47,840/yr)" : String) ≠
      "$23.00–$47,840.00/hr (~$47,840–$99,507,200/yr)" := by
  refine ⟨by decide, by decide, by decide⟩

/-- C2 (amended): the Salary Normalizer is idempotent only on inputs it
returns (trimmed) unchanged; whenever a call returns its trimmed input,
re-applying the normalizer is a no-op. -/
theorem C2_amended (s t : String) (h : normalize_salary s = .ok t)
    (ht : t = pyStrip s) : normalize_salary t = .ok t := by
  rw [normalize_salary] at h ⊢
  rw [ht] at h ⊢
  rw [pyStrip_idem]
  exact h

/-- C2 (witness): the amended idempotence applied at the concrete fixed
point "TBD". -/
theorem C2_amended_witness : normalize_salary "TBD" = .ok "TBD" :=
  C2_amended "TBD" "TBD" (by decide) (by decide)

/-- C3: single-value conversions use 2080 hours/year and 12 months/year,
formatting integer amounts with thousands separators and no decimals and
hourly figures with two decimals, on the three documented examples. -/
theorem C3_conversion_constants :
    (normalize_salary "$23/hr" = .ok "$23.00/hr (~$47,840/yr)" ∧
      strContains "$23.00/hr (~$47,840/yr)" "$23.00/hr" = true ∧
      strContains "$23.00/hr (~$47,840/yr)" "~$47,840/yr" = true) ∧
    (normalize_salary "$5000/mo" = .ok "$5,000/mo (~$60,000/yr, ~$28.85/hr)" ∧
      strContains "$5,000/mo (~$60,000/yr, ~$28.85/hr)" "$5,000/mo" = true ∧
      strContains "$5,000/mo (~$60,000/yr, ~$28.85/hr)" "~$60,000/yr" = true ∧
      strContains "$5,000/mo (~$60,000/yr, ~$28.85/hr)" "~$28.85/hr" = true) ∧
    (normalize_salary "$120,000/yr" = .ok "$120,000/yr (~$57.69/hr)" ∧
      strContains "$120,000/yr (~$57.69/hr)" "$120,000/yr" = true ∧
      strContains "$120,000/yr (~$57.69/hr)" "~$57.69/hr" = true) := by
  refine ⟨⟨by decide, by decide, by decide⟩, ⟨by decide, by decide, by decide, by decide⟩,
    by decide, by decide, by decide⟩

/-- C8 (counterexample): on an input with surrounding whitespace whose
trimmed form is a manual keyword, `normalize_salary` returns the trimmed
input, not the input unchanged. -/
theorem C8_counterexample :
    normalize_salary " TBD" = .ok "TBD" ∧
    normalize_salary " TBD" ≠ .ok " TBD" := by
  refine ⟨by decide, by decide⟩

/-- C8 (amended): the three pass-through cases return the trimmed input:
empty trimmed input gives the empty string; a trimmed input whose
lower-casing is a manual keyword is returned trimmed with case preserved;
and a trimmed input with no dollar sign, no k, and no time-unit marker is
returned trimmed. -/
theorem C8_amended (s : String) :
    (pyStrip s = "" → normalize_salary s = .ok "") ∧
    (SALARY_MANUAL_KEYWORDS.contains (pyLower (pyStrip s)) = true →
      normalize_salary s = .ok (pyStrip s)) ∧
    (strContains (pyStrip s) "$" = false →
     strContains (pyLower (pyStrip s)) "k" = false →
     HOURLY_MARKERS.any (fun m => strContains (pyLower (pyStrip s)) m) = false →
     YEARLY_MARKERS.any (fun m => strContains (pyLower (pyStrip s)) m) = false →
     MONTHLY_MARKERS.any (fun m => strContains (pyLower (pyStrip s)) m) = false →
      normalize_salary s = .ok (pyStrip s)) := by
  refine ⟨?_, ?_, ?_⟩
  · intro h
    rw [normalize_salary, h]
    rfl
  · intro hkw
    by_cases ht : pyStrip s = ""
    · rw [ht] at hkw
      exact absurd hkw (by decide)
    · rw [normalize_salary, normalizeCore, if_neg ht]
      simp only [hkw, if_true, ite_true]
  · intro h1 h2 h3 h4 h5
    rw [normalize_salary, normalizeCore]
    by_cases ht : pyStrip s = ""
    · rw [if_pos ht, ht]
    · rw [if_neg ht]
      by_cases hkw : SALARY_MANUAL_KEYWORDS.contains (pyLower (pyStrip s)) = true
      · simp only [hkw, ite_true]
      · simp only [hkw, ite_false, h1, h2, h3, h4, h5, Bool.or_false, Bool.not_false,
          Bool.and_true, ite_true, Bool.or_self, if_true, ite_self]

/-- C8 (witness): the amended pass-through cases at concrete inputs. -/
theorem C8_amended_witness :
    normalize_salary "  " = .ok "" ∧
    normalize_salary " TBD" = .ok "TBD" ∧
    normalize_salary "abc " = .ok "abc" := by
  refine ⟨(C8_amended "  ").1 (by decide), ?_, ?_⟩
  · have h := (C8_amended " TBD").2.1 (by decide)
    rwa [show pyStrip " TBD" = "TBD" from by decide] at h
  · have h := (C8_amended "abc ").2.2 (by decide) (by decide) (by decide) (by decide) (by decide)
    rwa [show pyStrip "abc " = "abc" from by decide] at h

/-- C9 (counterexample): the dollar-anchored value 50 is not k-suffixed, yet
it is multiplied by 1000 because the letter k occurs elsewhere in the input
(in "401k"); the unscaled reading claimed by the spec does not hold. -/
theorem C9_counterexample :
    normalize_salary "$50/hr 401k" = .ok "$50,000.00/hr (~$104,000,000/yr)" ∧
    normalize_salary "$50/hr 401k" ≠ .ok "$50.00/hr (~$104,000/yr)" := by
  refine ⟨by decide, by decide⟩

/-- C9 (amended): in the primary extraction every value under 1000 is
multiplied by 1000 whenever the letter k occurs anywhere in the input,
whether or not that value is itself k-suffixed; values of at least 1000 are
never scaled.  The scaling is a pointwise map over the unscaled extraction,
and the concrete cases illustrate each regime. -/
theorem C9_amended :
    (∀ (k : Bool) (gps : List (String × String)),
        collectValues k gps = (collectValues false gps).map (List.map (scaleK k))) ∧
    (∀ v : Frac, scaleK true v =
        if v.blt (Frac.ofNat 1000) then v.mul (Frac.ofNat 1000) else v) ∧
    (∀ v : Frac, scaleK false v = v) ∧
    normalize_salary "$50/hr" = .ok "$50.00/hr (~$104,000/yr)" ∧
    normalize_salary "$50/hr 401k" = .ok "$50,000.00/hr (~$104,000,000/yr)" ∧
    normalize_salary "$70k/yr" = .ok "$70,000/yr (~$33.65/hr)" ∧
    normalize_salary "$1,500/yr 401k" = .ok "$1,500/yr (~$0.72/hr)" := by
  refine ⟨collectValues_scale, ?_, ?_, by decide, by decide, by decide, by decide⟩
  · intro v; rfl
  · intro v; simp [scaleK]

/-! ## Claim theorems: extractors and dispatcher -/

/-- C1: when the outer document-construction stage fails, each structured
extractor returns the whole record with every extraction field at its empty
default and a human-readable message in notes; being total Lean functions
of the construction outcome, the embedded entry points raise nothing. -/
theorem C1_parse_error_defaults (today e url : String) :
    linkedin_parse today (.error e) url =
      { date_added := today, platform := "LinkedIn", company := "", title := "",
        location := "", salary := "", job_type := "", remote := "",
        url := url, status := "Not applied", notes := "Parsing error: " ++ e } ∧
    handshake_parse today (.error e) url =
      { date_added := today, platform := "Handshake", company := "", title := "",
        location := "", salary := "", job_type := "", remote := "",
        url := url, status := "Not applied", notes := "Parsing error: " ++ e } ∧
    generic_parse today (.error e) url =
      { date_added := today, platform := genericPlatform url, company := "", title := "",
        location := "", salary := "", job_type := "", remote := "",
        url := url, status := "Not applied", notes := "Parsing error: " ++ e } :=
  ⟨rfl, rfl, rfl⟩

/-- C4 (counterexample): on a text containing neither "remote" nor
"hybrid", the structured extractor classifies "On-site" while the free-text
extractor leaves the field empty — the two paths diverge. -/
theorem C4_counterexample :
    (handshake_parse "2026-01-01" (.ok ⟨none, none, none, "hello"⟩) "u").remote = "On-site" ∧
    (parse_text "2026-01-01" "hello" "u").remote = "" ∧
    ("On-site" : String) ≠ "" := by
  refine ⟨by decide, by decide, by decide⟩

/-- C4 (amended): on texts without an explicit "remote" label line, the two
paths agree whenever one of the keywords occurs (checked in the priority
order remote then hybrid), but when neither occurs the structured path
defaults to "On-site" while the free-text path leaves the field empty. -/
theorem C4_amended (today text jobUrl : String)
    (h : ∀ l ∈ ((pySplit text "\n").map pyStrip).filter (fun l => l ≠ ""),
      pyLower l ≠ "remote") :
    (∀ (d : Doc) (u : String),
        (handshake_parse today (.ok d) u).remote = detectRemote (pyLower d.bodyText)) ∧
    ((strContains (pyLower (joinNl (((pySplit text "\n").map pyStrip).filter
          (fun l => l ≠ "")))) "remote" = true ∨
      strContains (pyLower (joinNl (((pySplit text "\n").map pyStrip).filter
          (fun l => l ≠ "")))) "hybrid" = true) →
      (parse_text today text jobUrl).remote =
        detectRemote (pyLower (joinNl (((pySplit text "\n").map pyStrip).filter
          (fun l => l ≠ ""))))) ∧
    (strContains (pyLower (joinNl (((pySplit text "\n").map pyStrip).filter
        (fun l => l ≠ "")))) "remote" = false →
     strContains (pyLower (joinNl (((pySplit text "\n").map pyStrip).filter
        (fun l => l ≠ "")))) "hybrid" = false →
      (parse_text today text jobUrl).remote = "" ∧
      detectRemote (pyLower (joinNl (((pySplit text "\n").map pyStrip).filter
        (fun l => l ≠ "")))) = "On-site") := by
  refine ⟨fun d u => rfl, ?_, ?_⟩
  · intro hkw
    rw [parse_text_remote_char today text jobUrl h]
    exact (keywordRemote_agree _).1 hkw
  · intro hr hh
    rw [parse_text_remote_char today text jobUrl h]
    exact ⟨((keywordRemote_agree _).2 hr hh).1, ((keywordRemote_agree _).2 hr hh).2⟩

/-- C4 (witness): the amended agreement applied at a concrete remote text. -/
theorem C4_amended_witness :
    (parse_text "2026-01-01" "Fully remote role" "u").remote = "Remote" := by
  have hw := (C4_amended "2026-01-01" "Fully remote role" "u" (by decide)).2.1
    (Or.inl (by decide))
  rw [hw]
  decide

/-- C5 (counterexample): the free-text labeled path copies the label value
verbatim into job_type ("Volunteer"), and the core LinkedIn keyword chain
can produce "Temporary"; both escape the claimed five-value set. -/
theorem C5_counterexample :
    (parse_text "2026-01-01" "Job Type\nVolunteer" "u").job_type = "Volunteer" ∧
    coreLinkedinJobType "temporary position" = "Temporary" ∧
    (["Internship", "Full-time", "Part-time", "Contract", ""] : List String).contains
      "Volunteer" = false ∧
    (["Internship", "Full-time", "Part-time", "Contract", ""] : List String).contains
      "Temporary" = false := by
  refine ⟨by decide, by decide, by decide, by decide⟩

/-- C5 (amended): the job_type of the structured app extractors is always
one of Internship, Full-time, Part-time, Contract, or the empty string, as
is every value of their shared keyword chain. -/
theorem C5_amended (today url : String) (d : Except String Doc) :
    (["Internship", "Full-time", "Part-time", "Contract", ""] : List String).contains
      (linkedin_parse today d url).job_type = true ∧
    (["Internship", "Full-time", "Part-time", "Contract", ""] : List String).contains
      (handshake_parse today d url).job_type = true ∧
    (["Internship", "Full-time", "Part-time", "Contract", ""] : List String).contains
      (generic_parse today d url).job_type = true ∧
    (∀ bl : String,
      (["Internship", "Full-time", "Part-time", "Contract", ""] : List String).contains
        (detectJobType bl) = true) := by
  have hjt : ∀ bl : String,
      (["Internship", "Full-time", "Part-time", "Contract", ""] : List String).contains
        (detectJobType bl) = true := by
    intro bl
    unfold detectJobType
    repeat' split
    all_goals rfl
  cases d with
  | error e => exact ⟨rfl, rfl, rfl, hjt⟩
  | ok doc => exact ⟨hjt _, hjt _, hjt _, hjt⟩

/-- C6: the dispatcher is total and deterministic over an ordered registry:
a URL containing "linkedin.com" (the first entry) selects LinkedIn; one
containing "handshake.com" or "joinhandshake.com" but not "linkedin.com"
selects Handshake; one containing no fragment selects generic; and the
legacy routing of parse_job_html makes the same choice on every URL. -/
theorem C6_dispatcher (url : String) :
    (strContains (pyLower url) "linkedin.com" = true → detectParser url = .linkedin) ∧
    (strContains (pyLower url) "linkedin.com" = false →
      (strContains (pyLower url) "handshake.com" = true ∨
       strContains (pyLower url) "joinhandshake.com" = true) →
      detectParser url = .handshake) ∧
    (strContains (pyLower url) "linkedin.com" = false →
     strContains (pyLower url) "handshake.com" = false →
     strContains (pyLower url) "joinhandshake.com" = false →
      detectParser url = .generic) ∧
    parse_job_html_route url = detectParser url := by
  refine ⟨?_, ?_, ?_, ?_⟩
  · intro h1
    simp [detectParser, PARSERS, List.find?, h1]
  · intro h1 h2
    by_cases hh : strContains (pyLower url) "handshake.com"
    · simp [detectParser, PARSERS, List.find?, h1, hh]
    · rcases h2 with h2 | h2
      · exact absurd h2 hh
      · simp [detectParser, PARSERS, List.find?, h1, hh, h2]
  · intro h1 h2 h3
    simp [detectParser, PARSERS, List.find?, h1, h2, h3]
  · by_cases h1 : strContains (pyLower url) "linkedin.com" <;>
    by_cases h2 : strContains (pyLower url) "handshake.com" <;>
    by_cases h3 : strContains (pyLower url) "joinhandshake.com" <;>
      simp [detectParser, parse_job_html_route, PARSERS, List.find?, h1, h2, h3]

/-- C6 (witness): the dispatcher cases at concrete URLs. -/
theorem C6_dispatcher_witness :
    detectParser "https://www.linkedin.com/jobs/view/123" = .linkedin ∧
    detectParser "https://app.joinhandshake.com/jobs/1" = .handshake ∧
    detectParser "https://example.com/careers" = .generic :=
  ⟨(C6_dispatcher "https://www.linkedin.com/jobs/view/123").1 (by decide),
   (C6_dispatcher "https://app.joinhandshake.com/jobs/1").2.1 (by decide)
     (Or.inr (by decide)),
   (C6_dispatcher "https://example.com/careers").2.2.1 (by decide) (by decide) (by decide)⟩

/-- C7: the documented free-text end-to-end extraction: company TechCorp, a
title containing "Software", a location containing "New York", job_type
Internship and remote Remote. -/
theorem C7_free_text_end_to_end :
    (parse_text "2026-01-01"
      "TechCorp logo\nSoftware Engineering Intern\nTechCorp\nNew York, NY\nInternship\nRemote\n$30/hr"
      "u").company = "TechCorp" ∧
    strContains (parse_text "2026-01-01"
      "TechCorp logo\nSoftware Engineering Intern\nTechCorp\nNew York, NY\nInternship\nRemote\n$30/hr"
      "u").title "Software" = true ∧
    strContains (parse_text "2026-01-01"
      "TechCorp logo\nSoftware Engineering Intern\nTechCorp\nNew York, NY\nInternship\nRemote\n$30/hr"
      "u").location "New York" = true ∧
    (parse_text "2026-01-01"
      "TechCorp logo\nSoftware Engineering Intern\nTechCorp\nNew York, NY\nInternship\nRemote\n$30/hr"
      "u").job_type = "Internship" ∧
    (parse_text "2026-01-01"
      "TechCorp logo\nSoftware Engineering Intern\nTechCorp\nNew York, NY\nInternship\nRemote\n$30/hr"
      "u").remote = "Remote" := by
  refine ⟨by decide, by decide, by decide, by decide, by decide⟩

/-- C10: the free-text extractor always returns platform "Handshake",
status "Not applied" and empty notes — it never records a parse error. -/
theorem C10_free_text_constant_fields (today text jobUrl : String) :
    (parse_text today text jobUrl).platform = "Handshake" ∧
    (parse_text today text jobUrl).status = "Not applied" ∧
    (parse_text today text jobUrl).notes = "" :=
  ⟨rfl, rfl, rfl⟩

end JobTracker
